import Mathlib

/-!
# Verification of the Scan Execution & Response-Analysis Pipeline

Shallow embedding of the core pipeline of `backend/server.py`,
`backend/source_extraction.py` and `backend/mock_data.py`:

* Python strings are modelled as Lean `String`s; all the string
  operations the code uses (`lower`, `strip`, `split`, `in`,
  `startswith`, `find`, slicing, `replace`, `split()` on whitespace)
  are re-implemented on `String.data` (`List Char`), so that every
  definition is executable and kernel-reducible.  Python `len` and
  character indices are codepoint based, exactly as `List Char`
  indices are.
* `random.randint` / `random.shuffle` are modelled by an explicit
  oracle (`RandOracle`): theorems about all outcomes quantify over
  the oracle with range hypotheses, theorems about a possible
  outcome instantiate it.
* The OpenAI client is modelled as a `String → Except String String`
  call (query ↦ answer or raised exception), plus a `Bool` for
  "the `openai` module imported and `OPENAI_API_KEY` is set".
* `re.finditer(brand_lower, ...)` receives the *raw* brand name as a
  regex pattern; patterns are modelled by `reFinditerStarts`, which
  yields literal substring match positions for plain literal
  patterns and raises (`Except.error`) for a pattern with an
  unbalanced parenthesis, exactly as `re.compile` does.
-/

/-! ## Python string primitives on `List Char` -/

/-- Python `sub in s` on character lists: `p` occurs as a contiguous
substring of `s` (the empty string occurs in everything). -/
def hasSub (p : List Char) : List Char → Bool
  | [] => p.isEmpty
  | c :: t => p.isPrefixOf (c :: t) || hasSub p t

/-- Python `p in s` for strings. -/
def hasSubStr (p s : String) : Bool := hasSub p.data s.data

/-- Index of the first occurrence of `p` in `s` (Python `s.find(p)`,
`none` for Python's `-1`). -/
def firstSubPos (p : List Char) : List Char → Option Nat
  | [] => if p.isEmpty then some 0 else none
  | c :: t =>
    if p.isPrefixOf (c :: t) then some 0
    else (firstSubPos p t).map (· + 1)

/-- Python whitespace for `str.strip` (ASCII part). -/
def isPyWs (c : Char) : Bool :=
  c == ' ' || c == '\t' || c == '\n' || c == '\r' || c == '\x0b' || c == '\x0c'

/-- Python `s.strip()`. -/
def pyStripL (l : List Char) : List Char :=
  ((l.dropWhile isPyWs).reverse.dropWhile isPyWs).reverse

/-- Python `s.strip()` for strings. -/
def pyStrip (s : String) : String := ⟨pyStripL s.data⟩

/-- Python `s.lower()` (ASCII; all inputs exercised are ASCII). -/
def pyLower (s : String) : String := ⟨s.data.map Char.toLower⟩

/-- Python `len(s)` (number of codepoints). -/
def pyLen (s : String) : Nat := s.data.length

/-- Python `s.startswith(p)`. -/
def pyStartsWith (p s : String) : Bool := p.data.isPrefixOf s.data

/-- Python `s.split(sep)` for a one-character separator (keeps empty
pieces, as Python does for an explicit separator). -/
def splitOnCharL (sep : Char) : List Char → List (List Char)
  | [] => [[]]
  | c :: t =>
    match splitOnCharL sep t with
    | [] => [[]]
    | h :: rest => if c == sep then [] :: h :: rest else (c :: h) :: rest

/-- Python `s.split(sep)` on strings, one-character separator. -/
def pySplitChar (sep : Char) (s : String) : List String :=
  (splitOnCharL sep s.data).map (fun l => (⟨l⟩ : String))

/-- Python `s.split(sep, 1)[-1]`: everything after the first
occurrence of the (one-character) separator, the whole string when
the separator does not occur. -/
def afterFirstChar (sep : Char) : List Char → Option (List Char)
  | [] => none
  | c :: t => if c == sep then some t else afterFirstChar sep t

/-- Python `s.split(sep, 1)[-1]` on strings. -/
def pySplit1Last (sep : Char) (s : String) : String :=
  match afterFirstChar sep s.data with
  | some t => ⟨t⟩
  | none => s

/-- Python `s[n:]` (codepoint slice). -/
def pyDrop (n : Nat) (s : String) : String := ⟨s.data.drop n⟩

/-- Python `s[:n]` (codepoint slice). -/
def pyTake (n : Nat) (s : String) : String := ⟨s.data.take n⟩

/-- Python `s.replace(old, new)`: non-overlapping left-to-right
replacement of every occurrence. Fuel is the length of the subject,
enough since every step consumes at least one character. -/
def pyReplaceAux (old new : List Char) : Nat → List Char → List Char
  | _, [] => []
  | 0, l => l
  | fuel + 1, c :: t =>
    if old ≠ [] ∧ old.isPrefixOf (c :: t) then
      new ++ pyReplaceAux old new fuel ((c :: t).drop old.length)
    else
      c :: pyReplaceAux old new fuel t

/-- Python `s.replace(old, new)` on strings (for nonempty `old`, as
used by the code). -/
def pyReplace (old new s : String) : String :=
  ⟨pyReplaceAux old.data new.data s.data.length s.data⟩

/-- Python `s.split()`: split on whitespace runs, dropping empties
(used for `len(response.split())` token counts). -/
def pyWsSplitAux : List Char → List Char → List (List Char)
  | acc, [] => if acc.isEmpty then [] else [acc.reverse]
  | acc, c :: t =>
    if isPyWs c then
      (if acc.isEmpty then pyWsSplitAux [] t else acc.reverse :: pyWsSplitAux [] t)
    else pyWsSplitAux (c :: acc) t

/-- Python `len(s.split())`. -/
def pyWordCount (s : String) : Nat := (pyWsSplitAux [] s.data).length

/-- Python `", ".join(l)`. -/
def joinComma (l : List String) : String := String.intercalate ", " l

/-- First-occurrence deduplication.  Python materialises
`list(set(xs))` whose order is unspecified; the code only ever takes
a prefix of it, and the theorems below never depend on the order of a
deduplicated list with more than one element, so first-occurrence
order is a sound stand-in. -/
def dedupFirstAux (seen : List String) : List String → List String
  | [] => []
  | x :: t =>
    if seen.contains x then dedupFirstAux seen t
    else x :: dedupFirstAux (x :: seen) t

/-- First-occurrence deduplication entry point. -/
def dedupFirst (l : List String) : List String := dedupFirstAux [] l

/-- `|a - b|` on naturals. -/
def natDist (a b : Nat) : Nat := max a b - min a b

/-! ## Modelled `re.finditer` -/

/-- Non-overlapping start positions of literal `p` in `s`, scanned
left to right (what `re.finditer` yields for a literal pattern).
Fuel bounds the scan; the cursor advances every step. -/
def subStartsAux (p s : List Char) : Nat → Nat → List Nat
  | 0, _ => []
  | fuel + 1, i =>
    if i ≥ s.length then []
    else if p.isPrefixOf (s.drop i) then
      i :: subStartsAux p s fuel (i + p.length)
    else subStartsAux p s fuel (i + 1)

/-- All (non-overlapping) match start positions of a literal pattern;
the empty pattern matches at every position, as in Python. -/
def subStarts (p s : List Char) : List Nat :=
  if p.isEmpty then List.range (s.length + 1)
  else subStartsAux p s (s.length + 1) 0

/-- A pattern made only of alphanumerics, spaces and hyphens is a
regex literal (this covers every fixed audience term and every brand
name used in the theorems below). -/
def regexLiteralSafe (p : String) : Bool :=
  p.data.all (fun c => c.isAlphanum || c == ' ' || c == '-')

/-- A pattern with an unequal number of `(` and `)` does not compile:
`re.compile` raises `re.error` ("missing ), unterminated subpattern" /
"unbalanced parenthesis"). -/
def regexUnbalancedParen (p : String) : Bool :=
  (p.data.filter (fun c => c == '(')).length ≠
    (p.data.filter (fun c => c == ')')).length

/-- Model of `re.finditer(pattern, text)` start positions for the
patterns this code ever passes it: the fixed literal audience terms
and the raw (unescaped!) lowercased brand name.  A literal pattern
yields its substring match positions; a pattern with an unbalanced
parenthesis raises `re.error`.  Patterns outside these two classes
are not exercised by any theorem in this file. -/
def reFinditerStarts (pattern text : String) : Except String (List Nat) :=
  if regexLiteralSafe pattern then .ok (subStarts pattern.data text.data)
  else if regexUnbalancedParen pattern then
    .error "re.error: missing ), unterminated subpattern"
  else .ok (subStarts pattern.data text.data)

/-! ## Response Analyzer (`extract_enhanced_insights`, server.py 931-1075) -/

deriving instance DecidableEq for Except

/-- The structured signals returned by `extract_enhanced_insights`. -/
structure Insights where
  brand_mentioned : Bool
  ranking_position : Option Nat
  sentiment : String
  competitors_mentioned : List String
  key_features : List String
  target_audience : List String
  use_cases : List String
deriving Repr, DecidableEq

def positive_words : List String :=
  ["excellent", "outstanding", "best", "top", "leading", "superior", "great",
   "fantastic", "perfect", "ideal", "recommended"]

def negative_words : List String :=
  ["limited", "lacking", "poor", "expensive", "difficult", "complicated",
   "overpriced", "outdated", "slow"]

def feature_indicators : List String :=
  ["feature", "capability", "function", "integration", "automation",
   "analytics", "reporting", "dashboard", "api", "mobile"]

def audience_terms : List String :=
  ["small business", "enterprise", "startup", "mid-market", "large company",
   "teams", "freelancer", "agencies", "corporations"]

def use_case_patterns : List String :=
  ["ideal for", "perfect for", "great for", "best for", "designed for", "suited for"]

/-- server.py 979-995: when no numbered pattern matched on the brand's
line, count competitors mentioned in the text preceding the brand's
first mention and derive a position from that count (capped at 5). -/
def contextRank (response_lower brand_lower : String) (competitors : List String) : Nat :=
  let preceding := pyTake ((firstSubPos brand_lower.data response_lower.data).getD 0) response_lower
  let cnt := (competitors.filter (fun c => hasSubStr (pyLower c) preceding)).length
  if cnt = 0 then 1
  else if cnt = 1 then 2
  else if cnt = 2 then 3
  else min (cnt + 1) 5

/-- server.py 948-1012: ranking position and sentiment derived from the
first line that contains the brand.  Note the source sets
`position_found` only in the numbered-pattern branch, so the ordinal
branch's assignment is always overwritten by the context estimate;
this is translated faithfully. -/
def lineRankSentiment (response_lower brand_lower line : String)
    (competitors : List String) : Option Nat × String :=
  let ls := pyStrip line
  let ll := pyLower line
  let numbered : Option Nat :=
    if pyStartsWith "1." ls || pyStartsWith "1)" ls || pyStartsWith "#1" ls then some 1
    else if pyStartsWith "2." ls || pyStartsWith "2)" ls || pyStartsWith "#2" ls then some 2
    else if pyStartsWith "3." ls || pyStartsWith "3)" ls || pyStartsWith "#3" ls then some 3
    else if pyStartsWith "4." ls || pyStartsWith "4)" ls || pyStartsWith "#4" ls then some 4
    else if pyStartsWith "5." ls || pyStartsWith "5)" ls || pyStartsWith "#5" ls then some 5
    else none
  let position_found := numbered.isSome
  let afterOrdinal : Option Nat :=
    if position_found then numbered
    else if (["first choice", "top choice", "best option", "leading solution",
              "number one"]).any (fun w => hasSubStr w ll) then some 1
    else if (["second choice", "runner-up", "good alternative"]).any
        (fun w => hasSubStr w ll) then some 2
    else if (["third option", "also consider", "another option"]).any
        (fun w => hasSubStr w ll) then some 3
    else if (["worth mentioning", "also available", "other options"]).any
        (fun w => hasSubStr w ll) then some 4
    else none
  let ranking :=
    if position_found then afterOrdinal
    else some (contextRank response_lower brand_lower competitors)
  let p := (positive_words.filter (fun w => hasSubStr w ll)).length
  let n := (negative_words.filter (fun w => hasSubStr w ll)).length
  let sentiment :=
    if p > n then "positive" else if n > p then "negative" else "neutral"
  (ranking, sentiment)

/-- server.py 1020-1034: key features from sentences containing brand,
a top-3 keyword and a feature indicator (`break` after the first
indicator). -/
def keyFeaturesOf (response brand_lower : String) (keywords : List String) : List String :=
  (pySplitChar '.' response).foldl (fun acc sentence =>
    if hasSubStr brand_lower (pyLower sentence) then
      acc ++ ((keywords.take 3).foldl (fun acc2 kw =>
        if hasSubStr (pyLower kw) (pyLower sentence) then
          match feature_indicators.find? (fun ind => hasSubStr ind (pyLower sentence)) with
          | some ind => acc2 ++ [kw ++ " " ++ ind]
          | none => acc2
        else acc2) [])
    else acc) []

/-- server.py 1039-1049: per audience term with the term and the brand
both present, one appended copy of the term per brand occurrence that
has a term occurrence within 200 characters (the `break` leaves the
inner loop only).  `re.finditer` is called on the raw brand name and
can raise. -/
def targetAudienceE (response_lower brand_lower : String) :
    Except String (List String) :=
  audience_terms.foldlM (fun acc term =>
    if hasSubStr term response_lower && hasSubStr brand_lower response_lower then
      match reFinditerStarts brand_lower response_lower with
      | .error e => .error e
      | .ok bps =>
        let tps := subStarts term.data response_lower.data
        let hits := (bps.filter (fun bp => tps.any (fun tp => natDist bp tp < 200))).length
        pure (acc ++ List.replicate hits term)
    else pure acc) []

/-- server.py 1052-1065: use cases captured after a fixed pattern in
sentences containing the brand (`break` after the first pattern). -/
def useCasesOf (response brand_lower : String) : List String :=
  (pySplitChar '.' response).foldl (fun acc sentence =>
    if hasSubStr brand_lower (pyLower sentence) then
      match use_case_patterns.find? (fun pat => hasSubStr pat (pyLower sentence)) with
      | some pat =>
        let start := (firstSubPos pat.data (pyLower sentence).data).getD 0 + pyLen pat
        let uc := pyStrip (pyDrop start sentence)
        if uc ≠ "" ∧ pyLen uc < 100 then acc ++ [uc] else acc
      | none => acc
    else acc) []

/-- `extract_enhanced_insights` (server.py 931-1075).  Pure except for
the `re.finditer(brand_lower, ...)` calls in the target-audience step,
which raise `re.error` when the brand name does not compile as a
regex; hence the `Except` result. -/
def extract_enhanced_insights (response brand_name : String)
    (competitors keywords : List String) : Except String Insights :=
  let response_lower := pyLower response
  let brand_lower := pyLower brand_name
  let brand_mentioned := hasSubStr brand_lower response_lower
  let rs :=
    if brand_mentioned then
      match (pySplitChar '\n' response).find?
          (fun line => hasSubStr brand_lower (pyLower line)) with
      | some line => lineRankSentiment response_lower brand_lower line competitors
      | none => (none, "neutral")
    else (none, "neutral")
  let competitors_mentioned :=
    competitors.filter (fun c => hasSubStr (pyLower c) response_lower)
  let key_features :=
    if brand_mentioned then keyFeaturesOf response brand_lower keywords else []
  match targetAudienceE response_lower brand_lower with
  | .error e => .error e
  | .ok aud =>
    let ucs := if brand_mentioned then useCasesOf response brand_lower else []
    .ok { brand_mentioned := brand_mentioned
          ranking_position := rs.1
          sentiment := rs.2
          competitors_mentioned := competitors_mentioned.take 3
          key_features := (dedupFirst key_features).take 3
          target_audience := (dedupFirst aud).take 2
          use_cases := ucs.take 2 }


/-! ## Query results, randomness oracle, citation records -/

/-- One extracted source-domain record (source_extraction.py 66-72). -/
structure DomainRec where
  domain : String
  impact : Int
  mentions : Int
  category : String
  description : String
deriving Repr, DecidableEq

/-- One extracted source-article record (source_extraction.py 135-141).
`relevance` is modelled in `ℚ` (`0.95 - 0.05 i`, floored at `0.7`). -/
structure ArticleRec where
  url : String
  title : String
  impact : Int
  queries : Int
  relevance : ℚ
deriving Repr, DecidableEq

/-- Oracle for `random.randint` / `random.shuffle`: `jitterD i` and
`mentionsD i` are the two `randint` draws of domain record `i`
(ranges `[-5,5]` and `[1,8]`), `jitterA i` / `queriesA i` those of
article record `i` (ranges `[-3,3]` and `[1,6]`), and `shuffleD` is
the permutation `random.shuffle` applies to the fallback domain pool. -/
structure RandOracle where
  jitterD : Nat → Int
  mentionsD : Nat → Int
  jitterA : Nat → Int
  queriesA : Nat → Int
  shuffleD : List String → List String

/-- A deterministic oracle instance: zero jitter, minimal counts,
identity shuffle (one possible outcome of the random draws). -/
def ocZero : RandOracle :=
  { jitterD := fun _ => 0
    mentionsD := fun _ => 1
    jitterA := fun _ => 0
    queriesA := fun _ => 1
    shuffleD := fun l => l }

/-- One `QueryResult` as built by `run_enhanced_chatgpt_scan` /
`generate_mock_scan_result`: the dict keys become fields; the failure
shape has no `response` key and an `error` key, modelled with
`Option`. -/
structure QueryResultD where
  query : String
  platform : String
  model : String
  response : Option String
  error : Option String
  brand_mentioned : Bool
  ranking_position : Option Nat
  sentiment : String
  competitors_mentioned : List String
  key_features_mentioned : List String
  target_audience : List String
  use_cases : List String
  source_domains : List DomainRec
  source_articles : List ArticleRec
  tokens_used : Nat
deriving Repr, DecidableEq

/-- `generate_mock_scan_result` (mock_data.py 4-24): the result used
whenever OpenAI is not available or the API call fails. -/
def generate_mock_scan_result (query brand_name : String)
    (keywords competitors : List String) : QueryResultD :=
  let mock_response :=
    "For " ++ query ++ ", " ++ brand_name ++
    " appears to be a strong solution with key features like " ++
    joinComma (keywords.take 2) ++ ". Competitors like " ++
    joinComma (competitors.take 2) ++ " also offer similar capabilities."
  { query := query
    platform := "ChatGPT"
    model := "gpt-4o-mini"
    response := some mock_response
    error := none
    brand_mentioned := true
    ranking_position := some 1
    sentiment := "positive"
    competitors_mentioned := competitors.take 2
    key_features_mentioned := keywords.take 2
    target_audience := ["small business", "enterprise"]
    use_cases := ["general business", "team collaboration"]
    source_domains := []
    source_articles := []
    tokens_used := pyWordCount mock_response }

/-- The failure-shaped result of the outer `except` of
`run_enhanced_chatgpt_scan` (server.py 808-826). -/
def failure_scan_result (query e : String) : QueryResultD :=
  { query := query
    platform := "ChatGPT"
    model := "gpt-4o-mini"
    response := none
    error := some e
    brand_mentioned := false
    ranking_position := none
    sentiment := "neutral"
    competitors_mentioned := []
    key_features_mentioned := []
    target_audience := []
    use_cases := []
    source_domains := []
    source_articles := []
    tokens_used := 0 }

/-! ## Source Reference Extractor (source_extraction.py) -/

/-- Regex `\w`. -/
def isWordChar (c : Char) : Bool := c.isAlphanum || c == '_'

/-- The character class `[a-zA-Z0-9.-]` of the domain patterns. -/
def isDomChar (c : Char) : Bool := c.isAlphanum || c == '.' || c == '-'

/-- Maximal `[a-zA-Z0-9.-]` runs of the text, each with the character
just before and just after the run (`none` at the ends). Fuel is the
text length. -/
def domTokensAux : Nat → Option Char → List Char →
    List (Option Char × List Char × Option Char)
  | 0, _, _ => []
  | _, _, [] => []
  | fuel + 1, prev, c :: t =>
    if isDomChar c then
      let tok := (c :: t).takeWhile isDomChar
      let rest := (c :: t).dropWhile isDomChar
      (prev, tok, rest.head?) :: domTokensAux fuel rest.head? rest.tail
    else
      domTokensAux fuel (some c) t

/-- The capture-group strings the generic domain patterns
(source_extraction.py 17-22) can produce inside one `[a-zA-Z0-9.-]`
run: a split `tok = X ++ "." ++ tld ++ rest` with `X` nonempty
matches when the next character (inside the run only `.` or `-` are
non-word; after it any run-terminating char except `_`) is non-word,
and the `https?://`-anchored patterns (`.com`/`.org` only) also match
a run directly preceded by `/` with nothing required after. The
dedicated `www.` pattern is subsumed by these once the `www.` strip
of line 41 is applied. -/
def genericTokenMatches (prev : Option Char) (tok : List Char)
    (next : Option Char) : List (List Char) :=
  (List.range (tok.length + 1)).foldr (fun j acc =>
    let pre := tok.take j
    let rest := tok.drop j
    let hit := [".com", ".org", ".net"].any (fun tld =>
      tld.data.isSuffixOf pre && decide (pre.length > tld.data.length) &&
      (match rest with
       | [] =>
         (match next with
          | some c => ! isWordChar c
          | none => false) || (prev == some '/' && tld != ".net")
       | d :: _ => d == '.' || d == '-'))
    if hit then pre :: acc else acc) []

/-- `DOMAIN: domain.tld - description` marker lines
(source_extraction.py 14-16), for the well-formed marker format the
LLM is instructed to emit. Fuel is the text length. -/
def domainColonAux : Nat → List Char → List (List Char × List Char)
  | 0, _ => []
  | _, [] => []
  | fuel + 1, c :: t =>
    if ("DOMAIN:".data).isPrefixOf (c :: t) then
      let afterWs := ((c :: t).drop 7).dropWhile isPyWs
      let dom := afterWs.takeWhile isDomChar
      let rest := afterWs.dropWhile isDomChar
      let rest2 := rest.dropWhile (fun c => c == ' ' || c == '\t')
      if ([".com", ".org", ".net"].any (fun tld => tld.data.isSuffixOf dom)) ∧
          rest2.head? = some '-' then
        let desc := (rest2.tail.dropWhile (fun c => c == ' ' || c == '\t')).takeWhile
          (fun c => c ≠ '\n')
        if desc ≠ [] then (dom, desc) :: domainColonAux fuel t
        else domainColonAux fuel t
      else domainColonAux fuel t
    else domainColonAux fuel t

/-- The domain-pattern loop of `extract_source_domains_from_response`
(source_extraction.py 13-46): every pattern's matches are lowered;
`DOMAIN:` matches additionally record their description keyed by the
*uncleaned* lowered domain; every domain is `www.`-stripped, stripped
and kept when longer than 3 characters.  Python unions the results
into a `set` whose iteration order is unspecified; this model keeps
first-occurrence scan order, and no theorem below depends on the
order of a scan with more than one distinct domain. -/
def domainScan (response : String) : List String × List (String × String) :=
  let colon := domainColonAux response.data.length response.data
  let toks := domTokensAux response.data.length none response.data
  let generic := toks.foldr
    (fun pt acc => genericTokenMatches pt.1 pt.2.1 pt.2.2 ++ acc) []
  let descs := colon.map (fun p =>
    ((⟨p.1.map Char.toLower⟩ : String), (⟨p.2⟩ : String)))
  let clean := fun (d : List Char) =>
    pyStrip (pyReplace "www." "" (⟨d.map Char.toLower⟩ : String))
  let cands := colon.map (fun p => p.1) ++ generic
  let found := dedupFirst ((cands.map clean).filter (fun d => pyLen d > 3))
  (found, descs)

/-- Industry-specific additions to the fallback domain pool
(source_extraction.py 161-167). -/
def industryDomains (industry_lower : String) : List String :=
  if hasSubStr "shopify" industry_lower || hasSubStr "ecommerce" industry_lower then
    ["shopify.com", "bigcommerce.com", "woocommerce.com"]
  else if hasSubStr "expense" industry_lower || hasSubStr "finance" industry_lower then
    ["expensify.com", "concur.com", "ramp.com"]
  else if hasSubStr "saas" industry_lower || hasSubStr "software" industry_lower then
    ["saasworthy.com", "getapp.com", "alternativeto.net"]
  else []

/-- The full fallback pool before shuffling (source_extraction.py
152-172): review, content, community and news domains plus the
industry-specific ones, in dict insertion order. -/
def domainPool (industry : String) : List String :=
  ["g2.com", "capterra.com", "trustpilot.com", "softwareadvice.com"] ++
  ["medium.com", "techcrunch.com", "producthunt.com", "hackernoon.com"] ++
  ["reddit.com", "quora.com", "stackoverflow.com", "linkedin.com"] ++
  ["venturebeat.com", "forbes.com", "businessinsider.com", "inc.com"] ++
  industryDomains (pyLower industry)

/-- `generate_brand_specific_domains` (source_extraction.py 145-176):
shuffle the pool, take the first 5. -/
def generate_brand_specific_domains (oc : RandOracle)
    (brand_name industry : String) (keywords : List String) : List String :=
  (oc.shuffleD (domainPool industry)).take 5

/-- Domain category sniffing (source_extraction.py 56-64). -/
def domainCategory (domain : String) : String :=
  if ["reddit", "forum", "community"].any (fun k => hasSubStr k domain) then
    "Social Media"
  else if ["review", "rating", "compare"].any (fun k => hasSubStr k domain) then
    "Reviews"
  else if ["blog", "news", "article"].any (fun k => hasSubStr k domain) then
    "Content"
  else "Business"

/-- Map with a running index (Python `enumerate`). -/
def enumMapFrom {α β : Type} (f : Nat → α → β) : Nat → List α → List β
  | _, [] => []
  | i, a :: t => f i a :: enumMapFrom f (i + 1) t

/-- One domain record (source_extraction.py 53-72):
`impact = min(100, max(20, 95 - 10*i + randint(-5,5)))`. -/
def mkDomainRec (oc : RandOracle) (descs : List (String × String))
    (i : Nat) (domain : String) : DomainRec :=
  let impact : Int := max 20 (95 - 10 * (i : Int) + oc.jitterD i)
  { domain := domain
    impact := min 100 impact
    mentions := oc.mentionsD i
    category := domainCategory domain
    description := (descs.lookup domain).getD
      ("Relevant " ++ pyLower (domainCategory domain) ++ " platform") }

/-- `extract_source_domains_from_response` (source_extraction.py 6-74). -/
def extract_source_domains_from_response (oc : RandOracle)
    (response brand_name industry : String) (keywords : List String) :
    List DomainRec :=
  let scanned := domainScan response
  let domains_list :=
    if scanned.1.isEmpty then
      generate_brand_specific_domains oc brand_name industry keywords
    else scanned.1
  enumMapFrom (mkDomainRec oc scanned.2) 0 (domains_list.take 5)

/-- `[^\s\)]` of the URL pattern. -/
def isUrlStop (c : Char) : Bool := isPyWs c || c == ')'

/-- Matches of `(https?://[^\s\)]+)` (source_extraction.py 85):
non-overlapping, starting at each `http://` / `https://` occurrence
and running to whitespace or `)`. Fuel is the text length. -/
def httpTokensAux : Nat → List Char → List (List Char)
  | 0, _ => []
  | _, [] => []
  | fuel + 1, c :: t =>
    if ("https://".data).isPrefixOf (c :: t) ||
        ("http://".data).isPrefixOf (c :: t) then
      let tok := (c :: t).takeWhile (fun d => ¬ isUrlStop d)
      tok :: httpTokensAux fuel ((c :: t).dropWhile (fun d => ¬ isUrlStop d))
    else httpTokensAux fuel t

/-- `ARTICLE: url - title` marker lines (source_extraction.py 84), for
the well-formed marker format the LLM is instructed to emit. -/
def articleColonAux : Nat → List Char → List (List Char × List Char)
  | 0, _ => []
  | _, [] => []
  | fuel + 1, c :: t =>
    if ("ARTICLE:".data).isPrefixOf (c :: t) then
      let afterWs := ((c :: t).drop 8).dropWhile isPyWs
      if ("https://".data).isPrefixOf afterWs ∨ ("http://".data).isPrefixOf afterWs then
        let url := afterWs.takeWhile (fun d => ¬ isPyWs d)
        let rest := (afterWs.dropWhile (fun d => ¬ isPyWs d)).dropWhile
          (fun d => d == ' ' || d == '\t')
        if rest.head? = some '-' then
          let title := (rest.tail.dropWhile (fun d => d == ' ' || d == '\t')).takeWhile
            (fun d => d ≠ '\n')
          if title ≠ [] then (url, title) :: articleColonAux fuel t
          else articleColonAux fuel t
        else articleColonAux fuel t
      else articleColonAux fuel t
    else articleColonAux fuel t

/-- The article-pattern loop of `extract_source_articles_from_response`
(source_extraction.py 83-110): candidate URLs from the `ARTICLE:`
marker and the `https?://` scan (the scheme-less patterns 3-6 only
yield strings that the `url.startswith('http')` filter of line 109
discards again, so they contribute nothing); each URL is stripped and
kept when it starts with `http` and is longer than 10 characters.
Set-iteration order is modelled as first-occurrence order, as for
domains. -/
def articleScan (response : String) : List String × List (String × String) :=
  let colon := articleColonAux response.data.length response.data
  let toks := httpTokensAux response.data.length response.data
  let titles := colon.map (fun p => ((⟨p.1⟩ : String), (⟨p.2⟩ : String)))
  let cands := colon.map (fun p => (⟨p.1⟩ : String)) ++
    toks.map (fun l => (⟨l⟩ : String))
  let found := dedupFirst ((cands.map pyStrip).filter
    (fun u => pyStartsWith "http" u ∧ pyLen u > 10))
  (found, titles)

/-- `generate_brand_specific_articles` (source_extraction.py 178-193). -/
def generate_brand_specific_articles (brand_name industry : String)
    (keywords : List String) : List String :=
  let brand_slug := pyReplace " " "-" (pyLower brand_name)
  let industry_slug := pyReplace " " "-" (pyLower industry)
  ["https://www.capterra.com/" ++ industry_slug ++ "/reviews/review-" ++ brand_slug,
   "https://g2.com/products/" ++ brand_slug ++ "/reviews",
   "https://medium.com/@techreview/best-" ++ industry_slug ++ "-tools-2024-" ++ brand_slug,
   "https://www.forbes.com/sites/forbestechcouncil/" ++ industry_slug ++ "-solutions-comparison",
   "https://techcrunch.com/2024/01/15/" ++ brand_slug ++ "-" ++ industry_slug ++ "-startup-funding"]

/-- `generate_article_title` (source_extraction.py 195-209). -/
def generate_article_title (url brand_name industry : String) : String :=
  if hasSubStr "capterra" url then brand_name ++ " Reviews, Ratings & Features 2024"
  else if hasSubStr "g2" url then brand_name ++ " Reviews and Ratings | G2"
  else if hasSubStr "medium" url then "Best " ++ industry ++ " Tools in 2024: Complete Guide"
  else if hasSubStr "forbes" url then "Top " ++ industry ++ " Solutions for Modern Businesses"
  else if hasSubStr "techcrunch" url then
    brand_name ++ " Raises Series A to Transform " ++ industry
  else brand_name ++ " - " ++ industry ++ " Solution Review"

/-- One article record (source_extraction.py 129-141):
`impact = min(100, max(15, 90 - 12*i + randint(-3,3)))`; the float
`relevance` is modelled in `ℚ`. -/
def mkArticleRec (oc : RandOracle) (titles : List (String × String))
    (brand_name industry : String) (i : Nat) (url : String) : ArticleRec :=
  let impact : Int := max 15 (90 - 12 * (i : Int) + oc.jitterA i)
  { url := url
    title := (titles.lookup url).getD (generate_article_title url brand_name industry)
    impact := min 100 impact
    queries := oc.queriesA i
    relevance := max (7/10 : ℚ) (19/20 - (i : ℚ) * (1/20)) }

/-- `extract_source_articles_from_response` (source_extraction.py
76-143): below 3 found URLs the fallback URLs are appended with a
membership check; below 5 the whole fallback list is appended once
more (the `while ...: ...; break` of lines 124-126); the first 5
become records. -/
def extract_source_articles_from_response (oc : RandOracle)
    (response brand_name industry : String) (keywords : List String) :
    List ArticleRec :=
  let scanned := articleScan response
  let withFallback :=
    if scanned.1.length < 3 then
      (generate_brand_specific_articles brand_name industry keywords).foldl
        (fun acc url => if acc.contains url then acc else acc ++ [url]) scanned.1
    else scanned.1
  let final :=
    if withFallback.length < 5 then
      withFallback ++ generate_brand_specific_articles brand_name industry keywords
    else withFallback
  enumMapFrom (mkArticleRec oc scanned.2 brand_name industry) 0 (final.take 5)

/-! ## Query Generator (server.py 424-560) -/

/-- `competitors[0] if competitors else default` etc. -/
def headOr (l : List String) (default : String) : String := l.headD default

/-- `generate_realistic_fallback_queries` (server.py 513-560): the 25
template queries (10 pain points, 5 comparisons, 5 problem-solving,
5 use-case), concatenated and truncated to 25. -/
def generate_realistic_fallback_queries (brand_name industry : String)
    (keywords competitors : List String) : List String :=
  let pain_points :=
    ["best " ++ industry ++ " software for small business under $50 per month",
     "why is " ++ headOr competitors "expensive software" ++ " so expensive alternatives",
     "free " ++ industry ++ " tools vs paid options which is better",
     industry ++ " software that actually works for startups",
     "simple " ++ industry ++ " solution that doesn't require training",
     "affordable " ++ headOr keywords industry ++ " tools for growing business",
     "best " ++ industry ++ " platform with good customer support",
     industry ++ " software that integrates with shopify quickbooks",
     "modern " ++ industry ++ " tools that aren't complicated to use",
     "which " ++ industry ++ " platform has the best mobile app"]
  let comparison_queries :=
    [brand_name ++ " vs " ++ headOr competitors "popular alternative" ++ " honest comparison",
     "is " ++ headOr competitors "expensive tool" ++ " worth the money or better alternatives",
     headOr competitors "tool" ++ " review pros and cons alternatives",
     "better alternative to " ++ headOr competitors "expensive software" ++ " for small business",
     brand_name ++ " pricing vs " ++
       (if competitors.length > 1 then competitors.getD 1 "competitor" else "competitor") ++
       " which is cheaper"]
  let problem_solving :=
    ["how to improve " ++ headOr keywords "business efficiency" ++ " without expensive software",
     "struggling with " ++ headOr keywords "management" ++ " need simple solution",
     "best way to handle " ++ headOr keywords "operations" ++ " for growing team",
     headOr keywords "business" ++ " tools that actually save time",
     "fix " ++ headOr keywords "workflow" ++ " issues with better software"]
  let specific_use_cases :=
    [industry ++ " solution for team of 10-20 people",
     "e-commerce " ++ industry ++ " tools that work with multiple platforms",
     "b2b " ++ industry ++ " software with api integration options",
     "white label " ++ industry ++ " solution for agencies",
     "enterprise " ++ industry ++ " tools vs small business options"]
  (pain_points ++ comparison_queries ++ problem_solving ++ specific_use_cases).take 25

/-- The LLM-response parsing of `generate_realistic_queries_with_gpt`
(server.py 489-500): per stripped line beginning with a digit, `-` or
`•`, drop everything up to the first `.`, `-` and `•`, strip, append
`?` when longer than 10 characters without one, keep when still
longer than 10 characters.  No deduplication is performed. -/
def parseGptQueries (query_text : String) : List String :=
  (pySplitChar '\n' query_text).foldl (fun acc rawLine =>
    let line := pyStrip rawLine
    if line ≠ "" ∧
        ((line.data.head?.map Char.isDigit).getD false ∨
          pyStartsWith "-" line ∨ pyStartsWith "•" line) then
      let q0 := pyStrip (pySplit1Last '•' (pySplit1Last '-' (pySplit1Last '.' line)))
      let q := if pyLen q0 > 10 ∧ ¬ hasSubStr "?" q0 then q0 ++ "?" else q0
      if q ≠ "" ∧ pyLen q > 10 then acc ++ [q] else acc
    else acc) []

/-- `generate_realistic_queries_with_gpt` (server.py 424-511):
deterministic fallback when OpenAI is unavailable, when the call
raises, or when fewer than 15 usable lines parse; otherwise the first
25 parsed queries.  `openaiConfigured` models "the `openai` module
imported and `OPENAI_API_KEY` is set"; `llm` is the completion call
(answer text or raised exception). -/
def generate_realistic_queries_with_gpt (openaiConfigured : Bool)
    (llm : Except String String) (brand_name industry : String)
    (keywords competitors : List String) : List String :=
  if ¬ openaiConfigured then
    generate_realistic_fallback_queries brand_name industry keywords competitors
  else
    match llm with
    | .error _ => generate_realistic_fallback_queries brand_name industry keywords competitors
    | .ok query_text =>
      let queries := parseGptQueries query_text
      if queries.length < 15 then
        generate_realistic_fallback_queries brand_name industry keywords competitors
      else queries.take 25

/-! ## Per-query scan (server.py 705-826) and dispatch -/

/-- `run_enhanced_chatgpt_scan` (server.py 705-826).  Control flow of
the source: unavailable provider → mock result; API call raising →
mock result (the inner `except` of lines 773-776); response received
→ analyze + source extraction, with any exception raised by the
analysis (the unescaped-brand regex) caught by the outer `except`
(lines 808-826) and turned into the failure-shaped result.  The
function itself never propagates an exception. -/
def run_enhanced_chatgpt_scan (openaiConfigured : Bool)
    (llm : String → Except String String) (oc : RandOracle)
    (query brand_name industry : String) (keywords competitors : List String) :
    QueryResultD :=
  if ¬ openaiConfigured then
    generate_mock_scan_result query brand_name keywords competitors
  else
    match llm query with
    | .error _ => generate_mock_scan_result query brand_name keywords competitors
    | .ok answer =>
      match extract_enhanced_insights answer brand_name competitors keywords with
      | .error e => failure_scan_result query e
      | .ok a =>
        { query := query
          platform := "ChatGPT"
          model := "gpt-4o-mini"
          response := some answer
          error := none
          brand_mentioned := a.brand_mentioned
          ranking_position := a.ranking_position
          sentiment := a.sentiment
          competitors_mentioned := a.competitors_mentioned
          key_features_mentioned := a.key_features
          target_audience := a.target_audience
          use_cases := a.use_cases
          source_domains :=
            extract_source_domains_from_response oc answer brand_name industry keywords
          source_articles :=
            extract_source_articles_from_response oc answer brand_name industry keywords
          tokens_used := pyWordCount answer + pyWordCount query }

/-- The dispatch loop of `run_scan` (server.py 1322-1341): one result
per query, in plan order, appended unconditionally. -/
def dispatch (openaiConfigured : Bool) (llm : String → Except String String)
    (oc : RandOracle) (brand_name industry : String)
    (keywords competitors : List String) (queries : List String) :
    List QueryResultD :=
  queries.map (fun q =>
    run_enhanced_chatgpt_scan openaiConfigured llm oc q brand_name industry
      keywords competitors)

/-! ## Visibility Scorer (server.py 1374-1377 / 1524-1525) -/

/-- `sum(1 for result in scan_results if result.get("brand_mentioned", False))`. -/
def mentionedCount (results : List QueryResultD) : Nat :=
  (results.filter (fun r => r.brand_mentioned)).length

/-- `visibility_score = (mentioned_queries / total_queries) * 100 if
total_queries > 0 else 0` (server.py 1374-1377), in exact rational
arithmetic (the Python float division is exact at every ratio the
claims mention). -/
def visibility_score (results : List QueryResultD) : ℚ :=
  let total := results.length
  let mentioned := mentionedCount results
  if total > 0 then ((mentioned : ℚ) / (total : ℚ)) * 100 else 0

/-! ## Scan Orchestrator admission and progress (server.py 1077-1097, 1272-1351) -/

/-- Result of `check_weekly_scan_limit`. -/
structure ScanLimitCheck where
  can_scan : Bool
  days_remaining : Nat
deriving Repr, DecidableEq

/-- The `created_at` of the brand's most recent scan:
`db.scans.find_one(..., sort=[("created_at", -1)])` over the stored
scan records, modelled by their timestamps (seconds). -/
def mostRecentScan (scans : List Nat) : Option Nat :=
  scans.foldl (fun acc t =>
    match acc with
    | none => some t
    | some m => some (max m t)) none

/-- Python `(datetime.utcnow() - created_at).days` for a scan in the
past: whole days elapsed. -/
def daysBetween (created now : Nat) : Nat := (now - created) / 86400

/-- `check_weekly_scan_limit` (server.py 1077-1097). -/
def check_weekly_scan_limit (scans : List Nat) (now : Nat) : ScanLimitCheck :=
  match mostRecentScan scans with
  | none => { can_scan := true, days_remaining := 0 }
  | some created =>
    let days_since_scan := daysBetween created now
    if days_since_scan ≥ 7 then { can_scan := true, days_remaining := 0 }
    else { can_scan := false, days_remaining := 7 - days_since_scan }

/-- `scans_needed = {"quick": 5, "standard": 25, "deep": 50,
"competitor": 10}` with `.get(scan_type, 25)` (server.py 1288-1289). -/
def scansNeeded (scan_type : String) : Nat :=
  if scan_type = "quick" then 5
  else if scan_type = "standard" then 25
  else if scan_type = "deep" then 50
  else if scan_type = "competitor" then 10
  else 25

/-- Outcome of the admission checks of `run_scan` (server.py
1279-1292): HTTP 429 with the remaining days, HTTP 400 on quota,
or admission with the tier's scan cost. -/
inductive AdmissionResult where
  | rateLimited (days_remaining : Nat)
  | quotaExceeded
  | admitted (scans_cost : Nat)
deriving Repr, DecidableEq

/-- The admission prefix of `run_scan` (server.py 1279-1292). -/
def scan_admission (scans : List Nat) (now : Nat) (scan_type : String)
    (scans_used scans_limit : Nat) : AdmissionResult :=
  let chk := check_weekly_scan_limit scans now
  if ¬ chk.can_scan then .rateLimited chk.days_remaining
  else
    let cost := scansNeeded scan_type
    if scans_used + cost > scans_limit then .quotaExceeded
    else .admitted cost

/-- The query plan of `run_scan` (server.py 1316-1318): generated
queries truncated to the tier cost; paired with the `total_queries`
field fixed in the progress record at creation (server.py 1306). -/
def run_scan_plan (openaiConfigured : Bool) (llm : Except String String)
    (scan_type brand_name industry : String)
    (keywords competitors : List String) : Nat × List String :=
  let scans_cost := scansNeeded scan_type
  let all_queries := generate_realistic_queries_with_gpt openaiConfigured llm
    brand_name industry keywords competitors
  (scans_cost, all_queries.take scans_cost)

/-- The sequence of `progress` values written for one completed scan
(server.py 1305, 1324-1331, 1344-1351): `0` at creation, `i + 1`
before dispatching query `i`, and `len(queries)` in the completion
update. -/
def scanProgressTrace (queries : List String) : List Nat :=
  0 :: ((List.range queries.length).map (fun i => i + 1)) ++ [queries.length]

/-! ## Concrete fixtures -/

/-- A result whose brand was mentioned (the mock result). -/
def qrTrue : QueryResultD := generate_mock_scan_result "q" "Brand" [] []

/-- A result whose brand was not mentioned (the failure shape). -/
def qrFalse : QueryResultD := failure_scan_result "q" "provider error"

/-- Five results, two of them with `brand_mentioned = true`. -/
def fiveResults : List QueryResultD := [qrTrue, qrTrue, qrFalse, qrFalse, qrFalse]

/-- The response text of the spec's concrete analyzer scenario. -/
def acmeResponse : String :=
  "1. Acme is excellent for automation. 2. Zeta is good but limited."

/-! ## C1 -/

/-- C1: the visibility score equals `100 * mentioned / total` for a
nonempty result list and exactly `0` for the empty list; every list
of 5 results with exactly 2 mentions scores `40`; and the score is a
pure function of the result list (equal on equal inputs). -/
theorem C1_visibility_score :
    (∀ rs : List QueryResultD, rs ≠ [] →
      visibility_score rs = 100 * (mentionedCount rs : ℚ) / (rs.length : ℚ)) ∧
    visibility_score [] = 0 ∧
    (∀ rs : List QueryResultD, rs.length = 5 → mentionedCount rs = 2 →
      visibility_score rs = 40) ∧
    (∀ rs : List QueryResultD, visibility_score rs = visibility_score rs) := by
  refine ⟨?_, rfl, ?_, fun rs => rfl⟩
  · intro rs h
    have hl : 0 < rs.length := List.length_pos.mpr h
    simp only [visibility_score, if_pos hl]
    ring
  · intro rs h5 h2
    simp only [visibility_score, h5, h2]
    norm_num

/-- Witness for C1 at a concrete list of 5 results with 2 mentions. -/
theorem C1_visibility_score_witness : visibility_score fiveResults = 40 :=
  C1_visibility_score.2.2.1 fiveResults (by decide) (by decide)

/-! ## C2 -/

/-- C2 (counterexample): on the spec's concrete scenario the analyzer
does *not* return sentiment `"positive"` — the single matched line
contains `"excellent"` (positive) and `"limited"` (negative), a 1-1
tie, which the code maps to `"neutral"`. -/
theorem C2_counterexample :
    (extract_enhanced_insights acmeResponse "Acme" ["Zeta", "Yeta"] []).map
      Insights.sentiment ≠ Except.ok "positive" := by decide

/-- C2 (amended): the concrete scenario yields `brand_mentioned`,
ranking 1 and `competitors_mentioned = ["Zeta"]` as claimed, but
sentiment `"neutral"`. -/
theorem C2_concrete_scenario :
    extract_enhanced_insights acmeResponse "Acme" ["Zeta", "Yeta"] [] =
    .ok { brand_mentioned := true
          ranking_position := some 1
          sentiment := "neutral"
          competitors_mentioned := ["Zeta"]
          key_features := []
          target_audience := []
          use_cases := [] } := by decide

/-! ## C3 -/

/-- C3 (code bug): the analyzer is not total — it passes the raw
brand name to `re.finditer` as a regex pattern, so a brand name with
an unbalanced parenthesis (here `"acme("`, in a response that also
contains the audience term `"teams"`) raises `re.error` instead of
returning the documented structure. -/
theorem C3_analyzer_raises :
    extract_enhanced_insights "acme( is great for teams" "acme(" [] [] =
    .error "re.error: missing ), unterminated subpattern" := by decide

/-! ## C4 -/

/-- C4 (counterexample): when the per-query LLM call fails, the
resulting QueryResult has `brand_mentioned = true` (the code falls
back to the mock success result), not `false` as claimed. -/
theorem C4_counterexample :
    (run_enhanced_chatgpt_scan true (fun _ => .error "APIConnectionError") ocZero
      "best crm software" "Acme" "tech" ["automation"] ["Zeta"]).brand_mentioned
      = true := by decide

/-- C4 (amended): an LLM call failure is absorbed into the *mock
success* QueryResult (`brand_mentioned = true`, no error field), the
dispatch loop still produces one result per query, and no failure is
propagated; the failure-shaped result (`brand_mentioned = false`,
empty derived fields, error message) is produced only for exceptions
raised after the call, e.g. by the analyzer. -/
theorem C4_call_failure_behavior (oc : RandOracle) (e brand industry : String)
    (keywords competitors queries : List String) :
    (∀ q : String,
      run_enhanced_chatgpt_scan true (fun _ => .error e) oc q brand industry
        keywords competitors = generate_mock_scan_result q brand keywords competitors) ∧
    (∀ q : String, (generate_mock_scan_result q brand keywords competitors).brand_mentioned
        = true ∧
      (generate_mock_scan_result q brand keywords competitors).error = none) ∧
    (dispatch true (fun _ => .error e) oc brand industry keywords competitors
      queries).length = queries.length ∧
    (∀ q err : String,
      (failure_scan_result q err).brand_mentioned = false ∧
      (failure_scan_result q err).ranking_position = none ∧
      (failure_scan_result q err).competitors_mentioned = [] ∧
      (failure_scan_result q err).error = some err) := by
  refine ⟨fun q => rfl, fun q => ⟨rfl, rfl⟩, ?_, fun q err => ⟨rfl, rfl, rfl, rfl⟩⟩
  simp [dispatch]

/-! ## C5 -/

/-- C5: with the brand's most recent scan at time `T`, a scan request
at `T + 6 days` is rejected by the rate-limit check with 1 day
remaining (and `run_scan`'s admission raises the rate-limit error
carrying it), while a request at `T + 8 days` passes the rate-limit
check and is admitted. -/
theorem C5_rate_limit (scans : List Nat) (T : Nat)
    (h : mostRecentScan scans = some T) :
    check_weekly_scan_limit scans (T + 6 * 86400) =
      { can_scan := false, days_remaining := 1 } ∧
    check_weekly_scan_limit scans (T + 8 * 86400) =
      { can_scan := true, days_remaining := 0 } ∧
    scan_admission scans (T + 6 * 86400) "standard" 0 50 = .rateLimited 1 ∧
    scan_admission scans (T + 8 * 86400) "standard" 0 50 = .admitted 25 := by
  have h6 : daysBetween T (T + 6 * 86400) = 6 := by
    unfold daysBetween
    rw [Nat.add_sub_cancel_left]
  have h8 : daysBetween T (T + 8 * 86400) = 8 := by
    unfold daysBetween
    rw [Nat.add_sub_cancel_left]
  have c6 : check_weekly_scan_limit scans (T + 6 * 86400) =
      { can_scan := false, days_remaining := 1 } := by
    unfold check_weekly_scan_limit
    rw [h]
    simp [h6]
  have c8 : check_weekly_scan_limit scans (T + 8 * 86400) =
      { can_scan := true, days_remaining := 0 } := by
    unfold check_weekly_scan_limit
    rw [h]
    simp [h8]
  refine ⟨c6, c8, ?_, ?_⟩
  · unfold scan_admission
    rw [c6]
    decide
  · unfold scan_admission
    rw [c8]
    decide

/-- Witness for C5 at a concrete scan history. -/
theorem C5_rate_limit_witness :
    check_weekly_scan_limit [0] (0 + 6 * 86400) =
      { can_scan := false, days_remaining := 1 } ∧
    check_weekly_scan_limit [0] (0 + 8 * 86400) =
      { can_scan := true, days_remaining := 0 } ∧
    scan_admission [0] (0 + 6 * 86400) "standard" 0 50 = .rateLimited 1 ∧
    scan_admission [0] (0 + 8 * 86400) "standard" 0 50 = .admitted 25 :=
  C5_rate_limit [0] 0 rfl

/-! ## C6 -/

/-- An LLM response consisting of the same numbered query line 15
times: enough usable lines to bypass the fallback, so the parsed
(unduplicated) list is returned as-is. -/
def dupGptResponse : String :=
  String.intercalate "\n"
    (List.replicate 15 "1. best project management software for startups today")

/-- The query plan generated from `dupGptResponse`. -/
def dupGptQueries : List String :=
  generate_realistic_queries_with_gpt true (.ok dupGptResponse) "Acme" "tech" [] []

set_option maxRecDepth 8192

/-- C6 (counterexample): the LLM-assisted path performs no
deduplication — an LLM response repeating one query line yields a
returned plan with duplicate strings. -/
theorem C6_counterexample :
    dupGptQueries.length = 15 ∧ ¬ dupGptQueries.Nodup := by
  refine ⟨by decide, by decide⟩

/-- The fallback plan always has at most 25 entries. -/
lemma fallback_queries_len_le (b i : String) (ks cs : List String) :
    (generate_realistic_fallback_queries b i ks cs).length ≤ 25 := by
  unfold generate_realistic_fallback_queries
  exact List.length_take_le _ _

/-- C6 (amended): query generation always returns at most 30 entries
(in fact at most 25), in every mode and for every LLM response;
uniqueness of the entries is not guaranteed. -/
theorem C6_plan_bound (openaiConfigured : Bool) (llm : Except String String)
    (brand industry : String) (keywords competitors : List String) :
    (generate_realistic_queries_with_gpt openaiConfigured llm brand industry
      keywords competitors).length ≤ 25 ∧
    (generate_realistic_queries_with_gpt openaiConfigured llm brand industry
      keywords competitors).length ≤ 30 := by
  have h25 : (generate_realistic_queries_with_gpt openaiConfigured llm brand industry
      keywords competitors).length ≤ 25 := by
    unfold generate_realistic_queries_with_gpt
    split
    · exact fallback_queries_len_le _ _ _ _
    · split
      · exact fallback_queries_len_le _ _ _ _
      · dsimp only
        split
        · exact fallback_queries_len_le _ _ _ _
        · exact List.length_take_le _ _
  exact ⟨h25, h25.trans (by norm_num)⟩

/-! ## C7 / C8 helper lemmas -/

lemma enumMapFrom_length {α β : Type} (f : Nat → α → β) (i : Nat) (l : List α) :
    (enumMapFrom f i l).length = l.length := by
  induction l generalizing i with
  | nil => rfl
  | cons a t ih => simp [enumMapFrom, ih]

lemma mem_enumMapFrom {α β : Type} {f : Nat → α → β} {b : β} :
    ∀ {i : Nat} {l : List α}, b ∈ enumMapFrom f i l → ∃ j a, a ∈ l ∧ b = f j a := by
  intro i l
  induction l generalizing i with
  | nil => intro hmem; simp [enumMapFrom] at hmem
  | cons a t ih =>
    intro hmem
    simp only [enumMapFrom, List.mem_cons] at hmem
    rcases hmem with hmem | hmem
    · exact ⟨i, a, List.mem_cons_self a t, hmem⟩
    · obtain ⟨j, x, hx, hb⟩ := ih hmem
      exact ⟨j, x, List.mem_cons_of_mem a hx, hb⟩

lemma domainPool_len (industry : String) : 16 ≤ (domainPool industry).length := by
  unfold domainPool
  simp [List.length_append]

/-- Everything the membership-checked append loop of
`extract_source_articles_from_response` accumulates comes from the
start list or the appended items. -/
lemma dedupAppend_mem (items : List String) :
    ∀ (start : List String) (x : String),
      x ∈ items.foldl (fun acc url => if acc.contains url then acc else acc ++ [url]) start →
      x ∈ start ∨ x ∈ items := by
  induction items with
  | nil => intro start x hx; exact Or.inl hx
  | cons a t ih =>
    intro start x hx
    rw [List.foldl_cons] at hx
    rcases ih _ x hx with hs | ht
    · by_cases hc : start.contains a
      · rw [if_pos hc] at hs
        exact Or.inl hs
      · rw [if_neg hc] at hs
        rcases List.mem_append.mp hs with hs | hs
        · exact Or.inl hs
        · refine Or.inr ?_
          rw [List.mem_singleton.mp hs]
          exact List.mem_cons_self a t
    · exact Or.inr (List.mem_cons_of_mem a ht)

/-! ## C7 -/

/-- C7 (amended): on an empty-string response, for every shuffle
outcome, the extractor still returns at least 1 domain record (in
fact 5) and at least 3 article records (in fact 5), every domain
drawn from the fallback domain pool and every article URL from the
synthesized article list; no field, however, tags these records as
synthesized (see the counterexample). -/
theorem C7_fallback_guarantee (oc : RandOracle) (brand industry : String)
    (keywords : List String) (h : ∀ l, (oc.shuffleD l).Perm l) :
    1 ≤ (extract_source_domains_from_response oc "" brand industry keywords).length ∧
    3 ≤ (extract_source_articles_from_response oc "" brand industry keywords).length ∧
    (∀ r ∈ extract_source_domains_from_response oc "" brand industry keywords,
      r.domain ∈ domainPool industry) ∧
    (∀ r ∈ extract_source_articles_from_response oc "" brand industry keywords,
      r.url ∈ generate_brand_specific_articles brand industry keywords) := by
  have hdoms : extract_source_domains_from_response oc "" brand industry keywords =
      enumMapFrom (mkDomainRec oc []) 0
        (((oc.shuffleD (domainPool industry)).take 5).take 5) := rfl
  have hperm := (h (domainPool industry)).length_eq
  have hpool := domainPool_len industry
  have harts : extract_source_articles_from_response oc "" brand industry keywords =
      enumMapFrom (mkArticleRec oc [] brand industry) 0
        ((if ((generate_brand_specific_articles brand industry keywords).foldl
              (fun acc url => if acc.contains url then acc else acc ++ [url]) []).length < 5
          then ((generate_brand_specific_articles brand industry keywords).foldl
              (fun acc url => if acc.contains url then acc else acc ++ [url]) []) ++
            generate_brand_specific_articles brand industry keywords
          else ((generate_brand_specific_articles brand industry keywords).foldl
              (fun acc url => if acc.contains url then acc else acc ++ [url]) [])).take 5) := rfl
  have hF5 : (generate_brand_specific_articles brand industry keywords).length = 5 := rfl
  have hfinal : 5 ≤ (if ((generate_brand_specific_articles brand industry keywords).foldl
        (fun acc url => if acc.contains url then acc else acc ++ [url]) []).length < 5
      then ((generate_brand_specific_articles brand industry keywords).foldl
          (fun acc url => if acc.contains url then acc else acc ++ [url]) []) ++
        generate_brand_specific_articles brand industry keywords
      else ((generate_brand_specific_articles brand industry keywords).foldl
          (fun acc url => if acc.contains url then acc else acc ++ [url]) [])).length := by
    split
    · rw [List.length_append, hF5]
      omega
    · omega
  refine ⟨?_, ?_, ?_, ?_⟩
  · rw [hdoms, enumMapFrom_length, List.take_take]
    rw [List.length_take]
    omega
  · rw [harts, enumMapFrom_length, List.length_take]
    omega
  · intro r hr
    rw [hdoms] at hr
    obtain ⟨j, d, hd, hrf⟩ := mem_enumMapFrom hr
    have hd2 : d ∈ oc.shuffleD (domainPool industry) :=
      List.mem_of_mem_take (List.mem_of_mem_take hd)
    have hd3 : d ∈ domainPool industry := ((h (domainPool industry)).mem_iff).mp hd2
    subst hrf
    simpa [mkDomainRec] using hd3
  · intro r hr
    rw [harts] at hr
    obtain ⟨j, url, hu, hrf⟩ := mem_enumMapFrom hr
    have hu2 := List.mem_of_mem_take hu
    have hWsub : ∀ x, x ∈ ((generate_brand_specific_articles brand industry keywords).foldl
        (fun acc url => if acc.contains url then acc else acc ++ [url]) []) →
        x ∈ generate_brand_specific_articles brand industry keywords := by
      intro x hx
      rcases dedupAppend_mem _ _ _ hx with h0 | h1
      · exact absurd h0 (List.not_mem_nil x)
      · exact h1
    have hu3 : url ∈ generate_brand_specific_articles brand industry keywords := by
      split at hu2
      · rcases List.mem_append.mp hu2 with hw | hf
        · exact hWsub _ hw
        · exact hf
      · exact hWsub _ hu2
    subst hrf
    simpa [mkArticleRec] using hu3

/-- Witness for C7 at a concrete oracle (identity shuffle, zero
jitter) and concrete brand data. -/
theorem C7_fallback_guarantee_witness :
    1 ≤ (extract_source_domains_from_response ocZero "" "Acme" "tech" []).length ∧
    3 ≤ (extract_source_articles_from_response ocZero "" "Acme" "tech" []).length ∧
    (∀ r ∈ extract_source_domains_from_response ocZero "" "Acme" "tech" [],
      r.domain ∈ domainPool "tech") ∧
    (∀ r ∈ extract_source_articles_from_response ocZero "" "Acme" "tech" [],
      r.url ∈ generate_brand_specific_articles "Acme" "tech" []) :=
  C7_fallback_guarantee ocZero "Acme" "tech" [] (fun l => List.Perm.refl l)

/-- C7 (counterexample): a record synthesized from an empty response
is byte-for-byte identical to a record extracted from an actual
response mentioning `g2.com` — no category tag or any other field
distinguishes the synthesized pool downstream. -/
theorem C7_counterexample :
    (extract_source_domains_from_response ocZero "" "Acme" "tech" []).head? =
      (extract_source_domains_from_response ocZero "g2.com " "Acme" "tech" []).head? ∧
    (extract_source_domains_from_response ocZero "g2.com " "Acme" "tech" []).head? =
      some { domain := "g2.com", impact := 95, mentions := 1, category := "Business",
             description := "Relevant business platform" } := by decide

/-! ## C8 -/

/-- C8 (amended): for every response and every admissible jitter
outcome, domain impacts lie in `[20, 100]` and article impacts in
`[15, 93]`; in particular no impact is ever 0 (and article impacts
are never 100).  The pre-jitter base decreases by a fixed step with
rank, but the ±5/±3 jitter can break strict decrease and can push the
first domain impact to exactly 100 (see the counterexample). -/
theorem C8_impact_bounds (oc : RandOracle) (response brand industry : String)
    (keywords : List String)
    (hD : ∀ i, -5 ≤ oc.jitterD i ∧ oc.jitterD i ≤ 5)
    (hA : ∀ i, -3 ≤ oc.jitterA i ∧ oc.jitterA i ≤ 3) :
    (∀ r ∈ extract_source_domains_from_response oc response brand industry keywords,
      20 ≤ r.impact ∧ r.impact ≤ 100 ∧ r.impact ≠ 0) ∧
    (∀ r ∈ extract_source_articles_from_response oc response brand industry keywords,
      15 ≤ r.impact ∧ r.impact ≤ 93 ∧ r.impact ≠ 0) := by
  constructor
  · intro r hr
    unfold extract_source_domains_from_response at hr
    obtain ⟨j, d, hd, hrf⟩ := mem_enumMapFrom hr
    subst hrf
    simp only [mkDomainRec]
    have h20 : (20 : ℤ) ≤ min 100 (max 20 (95 - 10 * (j : ℤ) + oc.jitterD j)) :=
      le_min (by norm_num) (le_max_left _ _)
    refine ⟨h20, min_le_left _ _, ?_⟩
    omega
  · intro r hr
    unfold extract_source_articles_from_response at hr
    obtain ⟨j, url, hu, hrf⟩ := mem_enumMapFrom hr
    subst hrf
    simp only [mkArticleRec]
    have h15 : (15 : ℤ) ≤ min 100 (max 15 (90 - 12 * (j : ℤ) + oc.jitterA j)) :=
      le_min (by norm_num) (le_max_left _ _)
    have hY : (90 : ℤ) - 12 * (j : ℤ) + oc.jitterA j ≤ 93 := by
      have := (hA j).2
      have : (0 : ℤ) ≤ 12 * (j : ℤ) := by positivity
      omega
    have h93 : min 100 (max 15 (90 - 12 * (j : ℤ) + oc.jitterA j)) ≤ 93 :=
      (min_le_right _ _).trans (max_le (by norm_num) hY)
    refine ⟨h15, h93, ?_⟩
    omega

/-- Witness for C8 at the zero-jitter oracle and empty response. -/
theorem C8_impact_bounds_witness :
    (∀ r ∈ extract_source_domains_from_response ocZero "" "Acme" "tech" [],
      20 ≤ r.impact ∧ r.impact ≤ 100 ∧ r.impact ≠ 0) ∧
    (∀ r ∈ extract_source_articles_from_response ocZero "" "Acme" "tech" [],
      15 ≤ r.impact ∧ r.impact ≤ 93 ∧ r.impact ≠ 0) :=
  C8_impact_bounds ocZero "" "Acme" "tech" []
    (fun i => ⟨by norm_num [ocZero], by norm_num [ocZero]⟩)
    (fun i => ⟨by norm_num [ocZero], by norm_num [ocZero]⟩)

/-- An oracle whose first domain jitter draw is the maximal `+5`. -/
def ocJitterMax : RandOracle := { ocZero with jitterD := fun _ => 5 }

/-- An oracle drawing `-5` for the first domain and `+5` afterwards. -/
def ocJitterSwing : RandOracle :=
  { ocZero with jitterD := fun i => if i = 0 then -5 else 5 }

/-- C8 (counterexample): with jitter `+5` the first domain record's
impact is exactly 100 (`min(100, max(20, 95 + 5))`), and with jitter
`-5` then `+5` two consecutive impacts are both 90, so impacts are
neither always below 100 nor strictly decreasing. -/
theorem C8_counterexample :
    ((extract_source_domains_from_response ocJitterMax "" "Acme" "tech" []).map
        DomainRec.impact).head? = some 100 ∧
    ((extract_source_domains_from_response ocJitterSwing "" "Acme" "tech" []).map
        DomainRec.impact).take 2 = [90, 90] := by decide

/-! ## C9 -/

/-- The ascending run `[s, s+1, ..., s+k-1]`. -/
def countUp : Nat → Nat → List Nat
  | _, 0 => []
  | s, k + 1 => s :: countUp (s + 1) k

lemma countUp_snoc (k : Nat) : ∀ s : Nat, countUp s (k + 1) = countUp s k ++ [s + k] := by
  induction k with
  | zero => intro s; simp [countUp]
  | succ k ih =>
    intro s
    have e1 : countUp s (k + 2) = s :: countUp (s + 1) (k + 1) := rfl
    rw [e1, ih (s + 1)]
    simp [countUp, Nat.add_assoc, Nat.add_comm 1 k]

lemma mapRange_countUp (n : Nat) :
    (List.range n).map (fun i => i + 1) = countUp 1 n := by
  induction n with
  | zero => rfl
  | succ n ih =>
    rw [List.range_succ, List.map_append, ih, countUp_snoc]
    simp [Nat.add_comm]

lemma chain_countUp_snoc (k : Nat) :
    ∀ s : Nat, List.Chain' (· ≤ ·) (countUp s (k + 1) ++ [s + k]) := by
  induction k with
  | zero =>
    intro s
    simp [countUp]
  | succ k ih =>
    intro s
    have e1 : countUp s (k + 2) ++ [s + (k + 1)] =
        s :: (countUp (s + 1) (k + 1) ++ [(s + 1) + k]) := by
      have : s + (k + 1) = (s + 1) + k := by omega
      rw [this]
      rfl
    rw [e1]
    refine List.chain'_cons'.mpr ⟨?_, ih (s + 1)⟩
    intro y hy
    have hhead : (countUp (s + 1) (k + 1) ++ [(s + 1) + k]).head? = some (s + 1) := rfl
    rw [hhead] at hy
    have hy2 : s + 1 = y := by simpa using hy
    omega

/-- The progress write sequence of a completed scan is non-decreasing. -/
lemma scanProgressTrace_chain (queries : List String) :
    List.Chain' (· ≤ ·) (scanProgressTrace queries) := by
  unfold scanProgressTrace
  rw [mapRange_countUp]
  have h := chain_countUp_snoc queries.length 0
  have e : countUp 0 (queries.length + 1) ++ [0 + queries.length] =
      0 :: (countUp 1 queries.length ++ [queries.length]) := by
    simp [countUp]
  rw [e] at h
  exact h

/-- The last progress write of a completed scan is the number of
queries actually dispatched. -/
lemma scanProgressTrace_last (queries : List String) :
    (scanProgressTrace queries).getLast? = some queries.length := by
  unfold scanProgressTrace
  exact List.getLast?_concat _

/-- C9 (amended): for every completed scan the observable progress
sequence is non-decreasing and ends at the number of queries
actually dispatched, which never exceeds — but need not equal — the
`total_queries` field fixed at scan start (the generator returns at
most 25 queries while a deep tier fixes `total_queries = 50`; see the
counterexample). -/
theorem C9_progress_monotone (openaiConfigured : Bool) (llm : Except String String)
    (scan_type brand industry : String) (keywords competitors : List String) :
    List.Chain' (· ≤ ·) (scanProgressTrace
      (run_scan_plan openaiConfigured llm scan_type brand industry keywords competitors).2) ∧
    (scanProgressTrace
      (run_scan_plan openaiConfigured llm scan_type brand industry keywords competitors).2).getLast?
      = some (run_scan_plan openaiConfigured llm scan_type brand industry keywords
          competitors).2.length ∧
    (run_scan_plan openaiConfigured llm scan_type brand industry keywords
      competitors).2.length ≤
      (run_scan_plan openaiConfigured llm scan_type brand industry keywords competitors).1 := by
  refine ⟨scanProgressTrace_chain _, scanProgressTrace_last _, ?_⟩
  unfold run_scan_plan
  exact List.length_take_le _ _

/-- The plan of a deep-tier scan in deterministic fallback mode. -/
def deepPlan : Nat × List String :=
  run_scan_plan false (.error "") "deep" "Acme" "tech" [] []

/-- C9 (counterexample): a deep-tier scan fixes `total_queries = 50`
but the generator yields only 25 queries, so the final progress value
is 25 ≠ 50 — the trace does not end at `total_queries`. -/
theorem C9_counterexample :
    deepPlan.1 = 50 ∧ deepPlan.2.length = 25 ∧
    (scanProgressTrace deepPlan.2).getLast? = some 25 ∧
    (scanProgressTrace deepPlan.2).getLast? ≠ some deepPlan.1 := by
  refine ⟨rfl, by decide, ?_, ?_⟩
  · rw [scanProgressTrace_last]
    decide
  · rw [scanProgressTrace_last]
    decide

/-! ## C10 -/

lemma mentionedCount_map_mock (brand : String) (kws cs : List String) :
    ∀ qs : List String,
      mentionedCount (qs.map (fun q => generate_mock_scan_result q brand kws cs)) = qs.length := by
  intro qs
  induction qs with
  | nil => rfl
  | cons q t ih =>
    simp only [List.map_cons, mentionedCount] at ih ⊢
    rw [List.filter_cons, if_pos (by rfl)]
    simp [ih]

lemma fallback_queries_len (b i : String) (ks cs : List String) :
    (generate_realistic_fallback_queries b i ks cs).length = 25 := by
  unfold generate_realistic_fallback_queries
  rw [List.length_take]
  simp

lemma scansNeeded_ge_five (st : String) : 5 ≤ scansNeeded st := by
  unfold scansNeeded
  split_ifs <;> norm_num

/-- C10: with the LLM provider unconfigured (`openai` module absent
or no API key), every dispatched query yields the mock result with
`brand_mentioned = true`, rank 1 and positive sentiment, and every
scan plan is nonempty (tier cost ≥ 5, fallback plan of 25), so the
computed visibility score is exactly 100. -/
theorem C10_unconfigured_mock_scan (llmQ : Except String String)
    (llm : String → Except String String) (oc : RandOracle)
    (scan_type brand industry : String) (keywords competitors : List String) :
    dispatch false llm oc brand industry keywords competitors
        (run_scan_plan false llmQ scan_type brand industry keywords competitors).2 =
      (run_scan_plan false llmQ scan_type brand industry keywords competitors).2.map
        (fun q => generate_mock_scan_result q brand keywords competitors) ∧
    (∀ r ∈ dispatch false llm oc brand industry keywords competitors
        (run_scan_plan false llmQ scan_type brand industry keywords competitors).2,
      r.brand_mentioned = true ∧ r.ranking_position = some 1 ∧ r.sentiment = "positive") ∧
    visibility_score (dispatch false llm oc brand industry keywords competitors
      (run_scan_plan false llmQ scan_type brand industry keywords competitors).2) = 100 := by
  have hqs : (run_scan_plan false llmQ scan_type brand industry keywords competitors).2.length
      = min (scansNeeded scan_type) 25 := by
    unfold run_scan_plan generate_realistic_queries_with_gpt
    simp [List.length_take, fallback_queries_len]
  have hdisp : dispatch false llm oc brand industry keywords competitors
      (run_scan_plan false llmQ scan_type brand industry keywords competitors).2 =
      (run_scan_plan false llmQ scan_type brand industry keywords competitors).2.map
        (fun q => generate_mock_scan_result q brand keywords competitors) := rfl
  refine ⟨hdisp, ?_, ?_⟩
  · intro r hr
    rw [hdisp] at hr
    obtain ⟨q, hq, hrf⟩ := List.mem_map.mp hr
    subst hrf
    exact ⟨rfl, rfl, rfl⟩
  · rw [hdisp]
    have hm := mentionedCount_map_mock brand keywords competitors
      (run_scan_plan false llmQ scan_type brand industry keywords competitors).2
    have hpos : 0 < (run_scan_plan false llmQ scan_type brand industry keywords
        competitors).2.length := by
      rw [hqs]
      have := scansNeeded_ge_five scan_type
      omega
    unfold visibility_score
    rw [List.length_map, hm]
    rw [if_pos hpos]
    rw [div_self (by exact_mod_cast hpos.ne')]
    norm_num
